import Mathlib

/-!
Verification of the batch-read core (`aerospike_batch.c`) and pipeline
multiplexer (`as_pipe.c`) of the Aerospike C client, against its
natural-language specification.  The definitions below are a shallow
embedding of the C source: C enums become inductives, C structs become
structures, buffer-writing code becomes functions producing byte lists
(`List Nat`, each element < 256 by construction of `be32`/`be16`), and
pointer identity of bin-name arrays is modelled by a pointer id
(`Option Nat`) together with a heap function giving the pointed-to names.
-/

namespace Aerospike

/-! ## Policy enums (from as_policy.h, declarations only; values are the
C enum constants in source order) -/

inductive as_policy_replica where
  | MASTER
  | ANY
  | SEQUENCE
  | PREFER_RACK
deriving DecidableEq, Repr

inductive as_policy_read_mode_sc where
  | SESSION
  | LINEARIZE
  | ALLOW_REPLICA
  | ALLOW_UNAVAILABLE
deriving DecidableEq, Repr

inductive as_policy_read_mode_ap where
  | ONE
  | ALL
deriving DecidableEq, Repr

/-- Batch policy knobs used by `aerospike_batch.c`.  `predexp` is the
optional predicate expression, modelled as its pre-encoded field bytes
(the batch code treats it as an opaque field written by
`as_predexp_list_write`). -/
structure as_policy_batch where
  replica : as_policy_replica
  read_mode_sc : as_policy_read_mode_sc
  read_mode_ap : as_policy_read_mode_ap
  send_set_name : Bool
  allow_inline : Bool
  deserialize : Bool
  total_timeout : Nat
  predexp : Option (List Nat)
deriving DecidableEq, Repr

/-! ## Result codes (Modelled from the spec: numeric values of the
`as_status` codes come from as_status.h, which is not under src/; the
batch parser only distinguishes OK / NOT_FOUND / FILTERED_OUT / other.) -/

def AEROSPIKE_OK : Nat := 0
def AEROSPIKE_ERR_RECORD_NOT_FOUND : Nat := 2
def AEROSPIKE_ERR_TIMEOUT : Nat := 9
def AEROSPIKE_FILTERED_OUT : Nat := 27

/-! ## as_batch_get_replica_sc (aerospike_batch.c lines 523-537) -/

/-- `as_batch_get_replica_sc`: effective SC replica policy computed
before planning. -/
def as_batch_get_replica_sc (policy : as_policy_batch) : as_policy_replica :=
  match policy.read_mode_sc with
  | .SESSION => .MASTER
  | .LINEARIZE =>
      if policy.replica ≠ .PREFER_RACK then policy.replica else .SEQUENCE
  | _ => policy.replica

/-! ## Record slots and response messages -/

/-- `as_batch_read_record`: one user request slot.  The key's namespace,
set and digest are inlined; `bin_names` is the identity (address) of the
user's bin-name array, `none` for NULL — the names themselves live in a
separate heap function, mirroring C pointer semantics.  `result`,
`generation`, `ttl`, `bins` form the result slot filled by the parser. -/
structure as_batch_read_record where
  ns : String
  set : String
  digest : List Nat
  bin_names : Option Nat
  n_bin_names : Nat
  read_all_bins : Bool
  result : Nat
  generation : Nat
  ttl : Nat
  bins : List Nat
deriving DecidableEq, Repr, Inhabited

/-- `as_msg` record-message header as the batch parser consumes it
(after `as_msg_swap_header_from_be`); `transaction_ttl` is overloaded to
carry the batch index, `info3_last` is the `AS_MSG_INFO3_LAST` bit. -/
structure as_msg where
  result_code : Nat
  info3_last : Bool
  transaction_ttl : Nat
  generation : Nat
  record_ttl : Nat
  n_fields : Nat
  ops : List Nat
deriving DecidableEq, Repr, Inhabited

/-- `as_batch_parse_stop` (lines 132-136): `rc && rc != NOT_FOUND &&
rc != FILTERED_OUT` — `rc` is a `uint8_t`, so truthiness is `rc ≠ 0`. -/
def as_batch_parse_stop (rc : Nat) : Bool :=
  rc != AEROSPIKE_OK && rc != AEROSPIKE_ERR_RECORD_NOT_FOUND
    && rc != AEROSPIKE_FILTERED_OUT

/-- `as_batch_parse_record` (lines 116-123): init the slot's record with
generation/ttl and parse the bins into it.  The `deserialize` policy only
changes how complex bin values are materialized, not which bins are
stored, so it does not appear here. -/
def as_batch_parse_record (msg : as_msg) (slot : as_batch_read_record) :
    as_batch_read_record :=
  { slot with generation := msg.generation, ttl := msg.record_ttl,
              bins := msg.ops }

/-- Outcome of `as_batch_parse_records`: `ok` = buffer exhausted
(AEROSPIKE_OK), `noMoreRecords` = INFO3_LAST seen
(AEROSPIKE_NO_MORE_RECORDS), `errClient` = batch index out of range
(AEROSPIKE_ERR_CLIENT), `stopped code` = stop-batch result code reported
as the batch's failure. -/
inductive as_batch_parse_status where
  | ok
  | noMoreRecords
  | errClient
  | stopped (code : Nat)
deriving DecidableEq, Repr

/-- `as_batch_parse_records` (lines 226-308), batch-records path
(`use_batch_records = true`): walk the record messages of one response
frame, writing statuses and records into the addressed slots. -/
def as_batch_parse_records (msgs : List as_msg)
    (records : List as_batch_read_record) (n_keys : Nat) :
    as_batch_parse_status × List as_batch_read_record :=
  match msgs with
  | [] => (.ok, records)
  | msg :: rest =>
    if as_batch_parse_stop msg.result_code then
      (.stopped msg.result_code, records)
    else if msg.info3_last then
      (.noMoreRecords, records)
    else if n_keys ≤ msg.transaction_ttl then
      (.errClient, records)
    else
      let offset := msg.transaction_ttl
      let slot := records.getD offset default
      let slot := { slot with result := msg.result_code }
      let slot := if msg.result_code = AEROSPIKE_OK
                  then as_batch_parse_record msg slot else slot
      as_batch_parse_records rest (records.set offset slot) n_keys

/-! ## Wire-codec byte helpers (Modelled from the spec: the
`as_command_*` helpers live in as_command.h/.c, not under src/; their
byte layouts follow the request framing in spec section 4.B — a field is
a big-endian u32 length counting the type byte, the type byte, then the
payload; a bin-name operation is a u32 size, op, type, version, name-len
and the name, 8 bytes plus the name). -/

def AS_HEADER_SIZE : Nat := 30
def AS_FIELD_HEADER_SIZE : Nat := 5
def AS_DIGEST_VALUE_SIZE : Nat := 20

def AS_MSG_INFO1_READ : Nat := 1
def AS_MSG_INFO1_GET_ALL : Nat := 2
def AS_MSG_INFO1_BATCH_INDEX : Nat := 8
def AS_MSG_INFO1_GET_NOBINDATA : Nat := 32
def AS_MSG_INFO1_READ_MODE_AP_ALL : Nat := 64

def AS_FIELD_NAMESPACE : Nat := 0
def AS_FIELD_SETNAME : Nat := 1
def AS_FIELD_BATCH_INDEX : Nat := 40
def AS_FIELD_BATCH_INDEX_WITH_SET : Nat := 41

def AS_OPERATOR_READ : Nat := 1

def be32 (n : Nat) : List Nat :=
  [n / 16777216 % 256, n / 65536 % 256, n / 256 % 256, n % 256]

def be16 (n : Nat) : List Nat := [n / 256 % 256, n % 256]

def strBytes (s : String) : List Nat := s.data.map Char.toNat

def as_command_string_field_size (s : String) : Nat :=
  s.length + AS_FIELD_HEADER_SIZE

def as_command_string_operation_size (s : String) : Nat := s.length + 8

def as_command_write_field_header (ftype size : Nat) : List Nat :=
  be32 (size + 1) ++ [ftype]

def as_command_write_field_string (ftype : Nat) (s : String) : List Nat :=
  as_command_write_field_header ftype s.length ++ strBytes s

def as_command_write_bin_name (s : String) : List Nat :=
  be32 (s.length + 4) ++ [AS_OPERATOR_READ, 0, 0, s.length] ++ strBytes s

/-- SC read-mode bits written into info3 by `as_command_write_header_read`
(Modelled from the spec: SC_READ_TYPE and SC_READ_RELAX bits). -/
def as_command_sc_read_bits (sc : as_policy_read_mode_sc) : Nat :=
  match sc with
  | .SESSION => 0
  | .LINEARIZE => 8
  | .ALLOW_REPLICA => 16
  | .ALLOW_UNAVAILABLE => 24

/-- `as_command_write_header_read` (Modelled from the spec: 8-byte proto
header then a 22-byte message header carrying info1 at offset 9, info3 at
offset 11, the millisecond total-timeout and the field/op counts). -/
def as_command_write_header_read (read_attr info3 total_timeout n_fields
    n_ops : Nat) : List Nat :=
  List.replicate 8 0 ++ [22, read_attr, 0, info3, 0, 0]
    ++ be32 0 ++ be32 0 ++ be32 total_timeout ++ be16 n_fields ++ be16 n_ops

/-- The 20 digest bytes copied by `memcpy(p, record->key.digest.value,
AS_DIGEST_VALUE_SIZE)` — a fixed-size array copy, so exactly 20 bytes
regardless of the model list's length. -/
def as_digest_bytes (d : List Nat) : List Nat :=
  (d ++ List.replicate AS_DIGEST_VALUE_SIZE 0).take AS_DIGEST_VALUE_SIZE

/-! ## Batch-index request encoder (lines 368-521) -/

/-- The repeat-previous test shared verbatim by `as_batch_size_records`
(lines 402-404) and `as_batch_index_records_write` (lines 474-476):
namespaces compare with `strcmp`, sets with `strcmp` only when set names
are sent, and the bin-name selection by pointer identity
(`prev->bin_names == record->bin_names`) plus `read_all_bins`. -/
def as_batch_repeat_prev (send_set_name : Bool)
    (prev rcrd : as_batch_read_record) : Bool :=
  prev.ns == rcrd.ns && (!send_set_name || prev.set == rcrd.set)
    && prev.bin_names == rcrd.bin_names
    && prev.read_all_bins == rcrd.read_all_bins

/-- The full `prev && ...` guard: NULL `prev` (start of the loop) never
repeats. -/
def as_batch_prev_matches (send_set_name : Bool)
    (prev : Option as_batch_read_record) (rcrd : as_batch_read_record) :
    Bool :=
  match prev with
  | some p => as_batch_repeat_prev send_set_name p rcrd
  | none => false

/-- Per-entry size estimation loop of `as_batch_size_records`
(lines 392-424).  `heap ptr i` is the name at index `i` of the bin-name
array whose address is `ptr`. -/
def as_batch_size_entries (send_set_name : Bool) (heap : Nat → Nat → String)
    (records : List as_batch_read_record) (offsets : List Nat)
    (prev : Option as_batch_read_record) : Nat :=
  match offsets with
  | [] => 0
  | offset :: rest =>
    let r := records.getD offset default
    if as_batch_prev_matches send_set_name prev r then
      AS_DIGEST_VALUE_SIZE + 4 + 1
        + as_batch_size_entries send_set_name heap records rest prev
    else
      AS_DIGEST_VALUE_SIZE + 4
        + (as_command_string_field_size r.ns + 6)
        + (if send_set_name then as_command_string_field_size r.set else 0)
        + (match r.bin_names with
           | some ptr =>
             ((List.range r.n_bin_names).map
               (fun i => as_command_string_operation_size (heap ptr i))).sum
           | none => 0)
        + as_batch_size_entries send_set_name heap records rest (some r)

/-- `as_batch_size_records` (lines 368-425).  `pred_field` models the
raw predicate-expression field bytes handed in on async batch retry
(`pred_size` is its length); the normal path takes the predicate from
the policy. -/
def as_batch_size_records (policy : as_policy_batch)
    (heap : Nat → Nat → String) (records : List as_batch_read_record)
    (offsets : List Nat) (pred_field : Option (List Nat)) : Nat :=
  AS_HEADER_SIZE + AS_FIELD_HEADER_SIZE + 4 + 1
    + (match policy.predexp with
       | some l => l.length
       | none => match pred_field with
                 | some f => f.length
                 | none => 0)
    + as_batch_size_entries policy.send_set_name heap records offsets none

/-- `field_count_header` produced by `as_batch_size_records`: 2 when a
predicate-expression field is present, else 1. -/
def as_batch_field_count_header (policy : as_policy_batch)
    (pred_field : Option (List Nat)) : Nat :=
  if policy.predexp.isSome || pred_field.isSome then 2 else 1

/-- Non-repeat entry body written by `as_batch_index_records_write`
(lines 482-512): read attributes, field count, bin-op count, namespace
field, optional set field and the named bin operations. -/
def as_batch_write_entry_body (send_set_name : Bool) (read_attr : Nat)
    (heap : Nat → Nat → String) (r : as_batch_read_record) : List Nat :=
  let field_count : Nat := if send_set_name then 2 else 1
  if r.bin_names.isSome && r.n_bin_names != 0 then
    [read_attr] ++ be16 field_count ++ be16 r.n_bin_names
      ++ as_command_write_field_string AS_FIELD_NAMESPACE r.ns
      ++ (if send_set_name
          then as_command_write_field_string AS_FIELD_SETNAME r.set else [])
      ++ ((List.range r.n_bin_names).map
            (fun i => as_command_write_bin_name (heap (r.bin_names.getD 0) i))).flatten
  else
    [read_attr ||| (if r.read_all_bins then AS_MSG_INFO1_GET_ALL
                    else AS_MSG_INFO1_GET_NOBINDATA)]
      ++ be16 field_count ++ [0, 0]
      ++ as_command_write_field_string AS_FIELD_NAMESPACE r.ns
      ++ (if send_set_name
          then as_command_write_field_string AS_FIELD_SETNAME r.set else [])

/-- Entry-writing loop of `as_batch_index_records_write` (lines 465-515),
one byte list per entry: big-endian batch index, 20 digest bytes, then
either the repeat byte `1` alone or `0` followed by the full body. -/
def as_batch_write_entries (send_set_name : Bool) (read_attr : Nat)
    (heap : Nat → Nat → String) (records : List as_batch_read_record)
    (offsets : List Nat) (prev : Option as_batch_read_record) :
    List (List Nat) :=
  match offsets with
  | [] => []
  | offset :: rest =>
    let r := records.getD offset default
    if as_batch_prev_matches send_set_name prev r then
      (be32 offset ++ (as_digest_bytes r.digest ++ [1]))
        :: as_batch_write_entries send_set_name read_attr heap records rest prev
    else
      (be32 offset ++ (as_digest_bytes r.digest
          ++ ([0] ++ as_batch_write_entry_body send_set_name read_attr heap r)))
        :: as_batch_write_entries send_set_name read_attr heap records rest (some r)

/-- `as_batch_index_records_write` (lines 427-521) as the byte sequence
it leaves in the command buffer.  The C code writes a zero field length
and back-patches it to `p - field_size_ptr - 4` after the entries; the
model emits the patched value directly (same bytes, same length). -/
def as_batch_index_records_write (policy : as_policy_batch)
    (heap : Nat → Nat → String) (records : List as_batch_read_record)
    (offsets : List Nat) (pred_field : Option (List Nat)) : List Nat :=
  let read_attr := AS_MSG_INFO1_READ
    ||| (if policy.read_mode_ap = .ALL then AS_MSG_INFO1_READ_MODE_AP_ALL else 0)
  let header := as_command_write_header_read
    (read_attr ||| AS_MSG_INFO1_BATCH_INDEX)
    (as_command_sc_read_bits policy.read_mode_sc) policy.total_timeout
    (as_batch_field_count_header policy pred_field) 0
  let predBytes := match policy.predexp with
    | some l => l
    | none => match pred_field with
              | some f => f
              | none => []
  let entries := (as_batch_write_entries policy.send_set_name read_attr heap
                    records offsets none).flatten
  let fieldData := be32 offsets.length
    ++ [if policy.allow_inline then 1 else 0] ++ entries
  header ++ predBytes
    ++ as_command_write_field_header
         (if policy.send_set_name then AS_FIELD_BATCH_INDEX_WITH_SET
          else AS_FIELD_BATCH_INDEX) fieldData.length
    ++ fieldData

/-! ## Batch planner and retry planner (lines 805-818, 1256-1262,
1325-1516, 1518-1761).  Cluster nodes are modelled by their ids
(`Nat`); the partition resolver `as_batch_get_node` is an external
collaborator, modelled as a total assignment `offset → node` for the
pass under consideration. -/

/-- `as_batch_node`: one node's sub-batch — the node and the ordered
offset vector of batch indices routed to it. -/
structure as_batch_node where
  node : Nat
  offsets : List Nat
deriving DecidableEq, Repr, Inhabited

/-- The find-or-insert step of the planning loops (`as_batch_node_find`
plus the add-batch-node branch): locate the node's assignment, appending
the offset, or create a fresh assignment at the end. -/
def as_batch_plan_insert (plan : List as_batch_node) (node offset : Nat) :
    List as_batch_node :=
  match plan with
  | [] => [⟨node, [offset]⟩]
  | b :: rest =>
    if b.node = node then ⟨b.node, b.offsets ++ [offset]⟩ :: rest
    else b :: as_batch_plan_insert rest node offset

/-- The key-to-node mapping loop shared by the planner and all three
retry planners: walk the offsets in order, resolving each and
find-or-inserting its node's assignment. -/
def as_batch_build_plan_aux (assign : Nat → Nat) (offsets : List Nat)
    (plan : List as_batch_node) : List as_batch_node :=
  match offsets with
  | [] => plan
  | offset :: rest =>
    as_batch_build_plan_aux assign rest
      (as_batch_plan_insert plan (assign offset) offset)

def as_batch_build_plan (assign : Nat → Nat) (offsets : List Nat) :
    List as_batch_node :=
  as_batch_build_plan_aux assign offsets []

/-- The decline test of the retry planners (`batch_nodes.size == 1 &&
batch_node->node == task->node`, lines 1386-1394, 1463-1471,
1675-1683). -/
def as_batch_same_single_node (plan : List as_batch_node) (node : Nat) :
    Bool :=
  match plan with
  | [b] => b.node == node
  | _ => false

/-- Initial offset-vector capacity per node, computed identically in
`as_batch_records_execute` (lines 1256-1262), `as_batch_keys_execute`
(lines 899-906) and the three retry planners: average keys per node plus
a quarter, with a minimum of 10. -/
def offsets_capacity (n_keys n_nodes : Nat) : Nat :=
  let c := n_keys / n_nodes
  let c := c + (c >>> 2)
  if c < 10 then 10 else c

/-- The per-command AP/SC master routing flags (`cmd->master` /
`cmd->master_sc` on the sync path, `AS_ASYNC_FLAGS_MASTER` /
`AS_ASYNC_FLAGS_MASTER_SC` on the async path). -/
structure as_batch_master_flags where
  master : Bool
  master_sc : Bool
deriving DecidableEq, Repr

/-- Outcome of the synchronous retry (`as_batch_retry` returning `bool`):
`normalRetry` = returned `false`; `clusterEmpty` = empty cluster error
set, returned `true`; `dispatched plan` = split retry executed the
re-planned sub-batches and returned `true`. -/
inductive as_batch_sync_retry_result where
  | normalRetry
  | clusterEmpty
  | dispatched (plan : List as_batch_node)
deriving DecidableEq, Repr

/-- `as_batch_retry_records` (lines 1325-1402); `as_batch_retry_keys`
(lines 1404-1488) runs the same planning and decline logic over the key
array instead of the record vector.  Node-resolution failures abort the
retry with the resolver's error and are outside this total model. -/
def as_batch_retry_records (assign : Nat → Nat) (offsets : List Nat)
    (taskNode n_nodes : Nat) : as_batch_sync_retry_result :=
  if n_nodes = 0 then .clusterEmpty
  else
    let plan := as_batch_build_plan assign offsets
    if as_batch_same_single_node plan taskNode then .normalRetry
    else .dispatched plan

/-- `as_batch_retry` (lines 1490-1516): the guard on the replica policy
and the shared first-error flag, the conditional SC master flip, then the
split-retry planner.  Returns the outcome together with the parent
command's master flags after the call. -/
def as_batch_retry (replica : as_policy_replica) (error_mutex : Nat)
    (err_code : Nat) (read_mode_sc : as_policy_read_mode_sc)
    (flags : as_batch_master_flags) (assign : Nat → Nat)
    (offsets : List Nat) (taskNode n_nodes : Nat) :
    as_batch_sync_retry_result × as_batch_master_flags :=
  if ¬(replica = .SEQUENCE ∨ replica = .PREFER_RACK) ∨ error_mutex ≠ 0 then
    (.normalRetry, flags)
  else
    let flags :=
      if err_code ≠ AEROSPIKE_ERR_TIMEOUT ∨ read_mode_sc ≠ .LINEARIZE then
        { flags with master_sc := ! flags.master_sc }
      else flags
    (as_batch_retry_records assign offsets taskNode n_nodes, flags)

/-- Outcome of `as_batch_retry_async` (lines 1518-1761): `normalRetry` =
returned 1, `deferOriginal` = returned -2 (deadline already passed,
defer to the original error), `splitInitiated plan` = returned 0 after
dispatching the re-planned sub-batches.  (Return -1, abort on a
node-resolution failure, is outside this total model.) -/
inductive as_batch_async_retry_result where
  | normalRetry
  | deferOriginal
  | splitInitiated (plan : List as_batch_node)
deriving DecidableEq, Repr

/-- `as_batch_retry_async`: guards (replica policy, executor validity,
live nodes), the conditional SC master flip of the parent's flags, the
re-planning loop over the offsets parsed from the parent's send buffer,
the same-single-node decline and the deadline check.  `read_mode_sc` is
the value re-parsed from the parent command's header bytes; `timeout` is
the `bool timeout` argument; `now` is the clock read `cf_getms()`. -/
def as_batch_retry_async (replica : as_policy_replica) (valid : Bool)
    (n_nodes : Nat) (timeout : Bool)
    (read_mode_sc : as_policy_read_mode_sc) (flags : as_batch_master_flags)
    (assign : Nat → Nat) (offsets : List Nat) (parentNode : Nat)
    (total_deadline now : Nat) :
    as_batch_async_retry_result × as_batch_master_flags :=
  if ¬(replica = .SEQUENCE ∨ replica = .PREFER_RACK) then
    (.normalRetry, flags)
  else if ¬ valid then (.normalRetry, flags)
  else if n_nodes = 0 then (.normalRetry, flags)
  else
    let flags :=
      if ¬ timeout ∨ read_mode_sc ≠ .LINEARIZE then
        { flags with master_sc := ! flags.master_sc }
      else flags
    let plan := as_batch_build_plan assign offsets
    if as_batch_same_single_node plan parentNode then (.normalRetry, flags)
    else if 0 < total_deadline ∧ total_deadline ≤ now then
      (.deferOriginal, flags)
    else (.splitInitiated plan, flags)

/-! ## Pipeline multiplexer (as_pipe.c).  Commands are modelled by ids. -/

/-- `as_pipe_connection`: optional in-flight writer, FIFO queue of
readers awaiting responses (head = next to complete), and the pool /
cancellation flags. -/
structure as_pipe_connection where
  writer : Option Nat
  readers : List Nat
  in_pool : Bool
  canceling : Bool
  canceled : Bool
deriving DecidableEq, Repr, Inhabited

/-- The reader-cancellation loop of `cancel_connection` (lines 128-139):
repeatedly take the head of the readers queue, delete it and cancel it;
returns the commands in cancellation order. -/
def cancel_readers_loop (readers : List Nat) : List Nat :=
  match readers with
  | [] => []
  | r :: rest => r :: cancel_readers_loop rest

/-- `cancel_connection` (lines 102-161): quarantine the whole pipelined
connection — set `canceling`, cancel the writer (if any) via
`cancel_command` (which either retries the command or fires its error
callback), drain and cancel every queued reader, then either release the
connection (not in pool) or mark it `canceled` for release on the next
pool acquisition.  Returns the commands completed by `cancel_command`,
in order, together with the connection's final state. -/
def cancel_connection (conn : as_pipe_connection) :
    List Nat × as_pipe_connection :=
  let conn1 : as_pipe_connection := { conn with canceling := true }
  let completed :=
    (match conn1.writer with | some w => [w] | none => [])
      ++ cancel_readers_loop conn1.readers
  if ! conn1.in_pool then
    (completed, { conn1 with readers := [], canceled := true })
  else
    let conn2 : as_pipe_connection :=
      { conn1 with readers := [], writer := none, canceled := true,
                   canceling := false }
    (completed, conn2)

/-- `as_pipe_read_start` (lines 486-518): the writer whose request is
fully sent leaves the writer slot and is appended (`cf_ll_append`) to the
readers queue; then `put_connection` returns the connection to the pool
(`in_pool := true`) when the pool queue accepts it. -/
def as_pipe_read_start (cmd : Nat) (pool_has_space : Bool)
    (conn : as_pipe_connection) : as_pipe_connection :=
  let conn : as_pipe_connection :=
    { conn with writer := none, readers := conn.readers ++ [cmd] }
  if pool_has_space then { conn with in_pool := true } else conn

/-! ## Claim-side definitions -/

/-- The capacity formula as the specification words it: `ceil(n_keys /
n_nodes) × 1.25`, with a floor of 10 (exact rational arithmetic;
`(n_keys + n_nodes - 1) / n_nodes` is ⌈n_keys / n_nodes⌉ for
`n_nodes > 0`). -/
def offsets_capacity_claimed (n_keys n_nodes : Nat) : ℚ :=
  max 10 ((((n_keys + n_nodes - 1) / n_nodes : Nat) : ℚ) * (5 / 4))

/-! ## Theorems -/

/-- **C1.** For every batch policy, the effective SC replica policy
computed before planning equals: MASTER when `read_mode_sc` is SESSION;
the caller's replica policy when `read_mode_sc` is LINEARIZE, except that
PREFER_RACK is replaced by SEQUENCE; and the caller's replica policy
unchanged for every other SC read mode. -/
theorem c1_sc_replica_mapping (policy : as_policy_batch) :
    (policy.read_mode_sc = .SESSION →
      as_batch_get_replica_sc policy = .MASTER)
    ∧ (policy.read_mode_sc = .LINEARIZE →
      as_batch_get_replica_sc policy =
        (if policy.replica = .PREFER_RACK then .SEQUENCE
         else policy.replica))
    ∧ ((policy.read_mode_sc = .ALLOW_REPLICA ∨
        policy.read_mode_sc = .ALLOW_UNAVAILABLE) →
      as_batch_get_replica_sc policy = policy.replica) := by
  obtain ⟨replica, sc, ap, ssn, ai, de, tt, pe⟩ := policy
  cases sc <;> cases replica <;>
    simp [as_batch_get_replica_sc]

/-- Witness for C1 at a concrete policy (LINEARIZE + PREFER_RACK). -/
theorem c1_sc_replica_mapping_witness :
    ((⟨.PREFER_RACK, .LINEARIZE, .ONE, false, false, false, 0, none⟩ :
        as_policy_batch).read_mode_sc = .LINEARIZE)
    ∧ as_batch_get_replica_sc
        ⟨.PREFER_RACK, .LINEARIZE, .ONE, false, false, false, 0, none⟩ =
        (if (⟨.PREFER_RACK, .LINEARIZE, .ONE, false, false, false, 0,
              none⟩ : as_policy_batch).replica = .PREFER_RACK
         then .SEQUENCE
         else (⟨.PREFER_RACK, .LINEARIZE, .ONE, false, false, false, 0,
                none⟩ : as_policy_batch).replica) :=
  ⟨rfl, (c1_sc_replica_mapping _).2.1 rfl⟩

/-- **C8, counterexample.** At 41 keys over 2 nodes the code computes
`41 / 2 + (41 / 2) >> 2 = 20 + 5 = 25`, while the claimed formula gives
`ceil(41 / 2) × 1.25 = 21 × 1.25 = 26.25`. -/
theorem c8_capacity_counterexample :
    (offsets_capacity 41 2 : ℚ) ≠ offsets_capacity_claimed 41 2 := by
  have h : offsets_capacity 41 2 = 25 := by decide
  rw [h]
  unfold offsets_capacity_claimed
  norm_num

/-- **C8, amended.** For every batch of `n_keys` keys planned over
`n_nodes > 0` live nodes, the initial capacity of each node's offset
vector equals `⌊5 × ⌊n_keys / n_nodes⌋ / 4⌋` (the floor-average plus a
quarter of the floor-average, in integer arithmetic), with a floor of
10. -/
theorem c8_offsets_capacity_formula (n_keys n_nodes : Nat)
    (h : 0 < n_nodes) :
    offsets_capacity n_keys n_nodes =
      max 10 (5 * (n_keys / n_nodes) / 4) := by
  have e : ∀ m : Nat, m >>> 2 = m / 4 := fun m => by
    rw [Nat.shiftRight_eq_div_pow]
  simp only [offsets_capacity, e]
  split <;> omega

/-- Witness for C8 (amended) at 41 keys over 2 nodes. -/
theorem c8_offsets_capacity_formula_witness :
    0 < 2 ∧ offsets_capacity 41 2 = max 10 (5 * (41 / 2) / 4) :=
  ⟨by decide, c8_offsets_capacity_formula 41 2 (by decide)⟩

/-- **C9.** Split retry is attempted only under a narrow precondition:
`as_batch_retry` returns false (normal retry) unless the policy replica
is SEQUENCE or PREFER_RACK and no error has yet been recorded in the
shared first-error flag; `as_batch_retry_async` likewise falls back to
normal retry unless the replica is SEQUENCE or PREFER_RACK and the async
executor is still valid and the cluster has at least one node.  In all
those fall-back cases the parent's master flags are untouched. -/
theorem c9_retry_guard_preconditions (replica : as_policy_replica)
    (error_mutex err_code : Nat) (read_mode_sc : as_policy_read_mode_sc)
    (flags : as_batch_master_flags) (assign : Nat → Nat)
    (offsets : List Nat) (taskNode n_nodes : Nat) (valid timeout : Bool)
    (parentNode total_deadline now : Nat) :
    ((¬(replica = .SEQUENCE ∨ replica = .PREFER_RACK) ∨ error_mutex ≠ 0) →
      as_batch_retry replica error_mutex err_code read_mode_sc flags
        assign offsets taskNode n_nodes = (.normalRetry, flags))
    ∧ ((¬(replica = .SEQUENCE ∨ replica = .PREFER_RACK) ∨ valid = false ∨
        n_nodes = 0) →
      as_batch_retry_async replica valid n_nodes timeout read_mode_sc
        flags assign offsets parentNode total_deadline now =
        (.normalRetry, flags)) := by
  constructor
  · intro h
    unfold as_batch_retry
    rw [if_pos h]
  · intro h
    unfold as_batch_retry_async
    rcases h with h | h | h <;> simp [h]

/-- Witness for C9 at a concrete fall-back input (replica = MASTER). -/
theorem c9_retry_guard_preconditions_witness :
    (¬((as_policy_replica.MASTER = .SEQUENCE ∨
        as_policy_replica.MASTER = .PREFER_RACK)) ∨ (0 : Nat) ≠ 0)
    ∧ as_batch_retry .MASTER 0 9 .SESSION ⟨true, true⟩ (fun _ => 0) [0]
        0 1 = (.normalRetry, ⟨true, true⟩)
    ∧ as_batch_retry_async .MASTER true 1 false .SESSION ⟨true, true⟩
        (fun _ => 0) [0] 0 0 0 = (.normalRetry, ⟨true, true⟩) :=
  ⟨Or.inl (by decide),
   (c9_retry_guard_preconditions .MASTER 0 9 .SESSION ⟨true, true⟩
      (fun _ => 0) [0] 0 1 true false 0 0 0).1 (Or.inl (by decide)),
   (c9_retry_guard_preconditions .MASTER 0 9 .SESSION ⟨true, true⟩
      (fun _ => 0) [0] 0 1 true false 0 0 0).2 (Or.inl (by decide))⟩

/-- **C4, counterexample.**  A timeout retry under LINEARIZE enters the
split-retry planner (replica SEQUENCE, no recorded error, plan dispatched
to a different node) yet the SC master flag is NOT flipped: it stays
`true` where the claim requires `false`. -/
theorem c4_no_flip_counterexample :
    (as_batch_retry .SEQUENCE 0 AEROSPIKE_ERR_TIMEOUT .LINEARIZE
        ⟨true, true⟩ (fun _ => 1) [0] 0 2).1 =
      .dispatched [⟨1, [0]⟩]
    ∧ ¬((as_batch_retry .SEQUENCE 0 AEROSPIKE_ERR_TIMEOUT .LINEARIZE
        ⟨true, true⟩ (fun _ => 1) [0] 0 2).2.master_sc = false) := by
  decide

/-- **C4, amended.** On every batch retry that enters the split-retry
planner, the command's SC master flag is flipped **unless** the error is
a timeout and the SC read mode is LINEARIZE (in which case it is left as
is), and the command's AP master flag is left unchanged by the retry
planning.  This covers both the sync path (`as_batch_retry`) and the
async path (`as_batch_retry_async`). -/
theorem as_batch_retry_snd (replica : as_policy_replica)
    (err_code : Nat) (read_mode_sc : as_policy_read_mode_sc)
    (flags : as_batch_master_flags) (assign : Nat → Nat)
    (offsets : List Nat) (taskNode n_nodes : Nat)
    (hrep : replica = .SEQUENCE ∨ replica = .PREFER_RACK) :
    (as_batch_retry replica 0 err_code read_mode_sc flags assign offsets
        taskNode n_nodes).2 =
      (if err_code ≠ AEROSPIKE_ERR_TIMEOUT ∨ read_mode_sc ≠ .LINEARIZE
       then { flags with master_sc := ! flags.master_sc } else flags) := by
  simp only [as_batch_retry]
  rw [if_neg (by simp [hrep])]

theorem as_batch_retry_async_snd (replica : as_policy_replica)
    (n_nodes : Nat) (timeout : Bool)
    (read_mode_sc : as_policy_read_mode_sc)
    (flags : as_batch_master_flags) (assign : Nat → Nat)
    (offsets : List Nat) (parentNode total_deadline now : Nat)
    (hrep : replica = .SEQUENCE ∨ replica = .PREFER_RACK)
    (hnodes : n_nodes ≠ 0) :
    (as_batch_retry_async replica true n_nodes timeout read_mode_sc flags
        assign offsets parentNode total_deadline now).2 =
      (if ¬timeout = true ∨ read_mode_sc ≠ .LINEARIZE
       then { flags with master_sc := ! flags.master_sc } else flags) := by
  simp only [as_batch_retry_async]
  rw [if_neg (by simp [hrep])]
  rw [if_neg (by simp)]
  rw [if_neg hnodes]
  split_ifs <;> rfl

theorem c4_master_sc_flip_guarded (replica : as_policy_replica)
    (err_code : Nat) (read_mode_sc : as_policy_read_mode_sc)
    (flags : as_batch_master_flags) (assign : Nat → Nat)
    (offsets : List Nat) (taskNode n_nodes : Nat) (timeout : Bool)
    (parentNode total_deadline now : Nat)
    (hrep : replica = .SEQUENCE ∨ replica = .PREFER_RACK)
    (hnodes : n_nodes ≠ 0) :
    ((as_batch_retry replica 0 err_code read_mode_sc flags assign offsets
        taskNode n_nodes).2.master = flags.master
     ∧ (as_batch_retry replica 0 err_code read_mode_sc flags assign
        offsets taskNode n_nodes).2.master_sc =
        (if err_code = AEROSPIKE_ERR_TIMEOUT ∧ read_mode_sc = .LINEARIZE
         then flags.master_sc else ! flags.master_sc))
    ∧ ((as_batch_retry_async replica true n_nodes timeout read_mode_sc
        flags assign offsets parentNode total_deadline now).2.master =
        flags.master
     ∧ (as_batch_retry_async replica true n_nodes timeout read_mode_sc
        flags assign offsets parentNode total_deadline now).2.master_sc =
        (if timeout = true ∧ read_mode_sc = .LINEARIZE
         then flags.master_sc else ! flags.master_sc)) := by
  rw [as_batch_retry_snd replica err_code read_mode_sc flags assign
        offsets taskNode n_nodes hrep,
      as_batch_retry_async_snd replica n_nodes timeout read_mode_sc flags
        assign offsets parentNode total_deadline now hrep hnodes]
  refine ⟨⟨?_, ?_⟩, ?_, ?_⟩
  · split_ifs <;> rfl
  · by_cases hc : err_code = AEROSPIKE_ERR_TIMEOUT ∧
        read_mode_sc = .LINEARIZE
    · rw [if_neg (by tauto), if_pos hc]
    · rw [if_pos (by tauto), if_neg hc]
  · split_ifs <;> rfl
  · by_cases hc : timeout = true ∧ read_mode_sc = .LINEARIZE
    · rw [if_neg (by tauto), if_pos hc]
    · rw [if_pos (by tauto), if_neg hc]

/-- Witness for C4 (amended): non-timeout retry under SESSION flips the
SC master flag and leaves the AP flag alone, on both paths. -/
theorem c4_master_sc_flip_guarded_witness :
    (as_policy_replica.SEQUENCE = .SEQUENCE ∨
     as_policy_replica.SEQUENCE = .PREFER_RACK)
    ∧ (2 : Nat) ≠ 0
    ∧ ((as_batch_retry .SEQUENCE 0 4 .SESSION ⟨true, true⟩ (fun _ => 1)
        [0] 0 2).2.master = true
       ∧ (as_batch_retry .SEQUENCE 0 4 .SESSION ⟨true, true⟩ (fun _ => 1)
        [0] 0 2).2.master_sc =
          (if (4 : Nat) = AEROSPIKE_ERR_TIMEOUT ∧
              as_policy_read_mode_sc.SESSION = .LINEARIZE
           then true else ! true))
    ∧ ((as_batch_retry_async .SEQUENCE true 2 false .SESSION ⟨true, true⟩
        (fun _ => 1) [0] 0 0 0).2.master = true
       ∧ (as_batch_retry_async .SEQUENCE true 2 false .SESSION
        ⟨true, true⟩ (fun _ => 1) [0] 0 0 0).2.master_sc =
          (if false = true ∧ as_policy_read_mode_sc.SESSION = .LINEARIZE
           then true else ! true)) :=
  ⟨Or.inl rfl, by decide,
   (c4_master_sc_flip_guarded .SEQUENCE 4 .SESSION ⟨true, true⟩
      (fun _ => 1) [0] 0 2 false 0 0 0 (Or.inl rfl) (by decide)).1,
   (c4_master_sc_flip_guarded .SEQUENCE 4 .SESSION ⟨true, true⟩
      (fun _ => 1) [0] 0 2 false 0 0 0 (Or.inl rfl) (by decide)).2⟩

/-- **C7, counterexample.** A connection already holding reader 1: when
writer 2 finishes sending, it is appended at the tail, so the head of the
readers queue is still 1, not 2 — the claim's "placed at the head" fails. -/
theorem c7_head_counterexample :
    ¬((as_pipe_read_start 2 true
        ⟨some 2, [1], false, false, false⟩).readers.head? = some 2) := by
  decide

/-- **C7, amended.** For every pipelined command, when its request is
fully sent (`read_start`) the connection's writer slot is cleared and the
command is appended at the **tail** of the connection's readers queue: it
becomes the last reader, the previous head (if any) is preserved, and it
is the head only when the queue was empty. -/
theorem c7_read_start_appends_tail (cmd : Nat) (pool_has_space : Bool)
    (conn : as_pipe_connection) (h : conn.writer = some cmd) :
    (as_pipe_read_start cmd pool_has_space conn).writer = none
    ∧ (as_pipe_read_start cmd pool_has_space conn).readers =
        conn.readers ++ [cmd]
    ∧ (as_pipe_read_start cmd pool_has_space conn).readers.getLast? =
        some cmd
    ∧ (conn.readers = [] →
        (as_pipe_read_start cmd pool_has_space conn).readers.head? =
          some cmd)
    ∧ (∀ r, conn.readers.head? = some r →
        (as_pipe_read_start cmd pool_has_space conn).readers.head? =
          some r) := by
  have hrd : (as_pipe_read_start cmd pool_has_space conn).readers =
      conn.readers ++ [cmd] := by
    unfold as_pipe_read_start
    split_ifs <;> rfl
  have hwr : (as_pipe_read_start cmd pool_has_space conn).writer =
      none := by
    unfold as_pipe_read_start
    split_ifs <;> rfl
  refine ⟨hwr, hrd, ?_, ?_, ?_⟩
  · rw [hrd]
    exact List.getLast?_concat _
  · intro h0
    rw [hrd, h0]
    rfl
  · intro r hr
    rw [hrd]
    exact Option.mem_def.mp
      (List.mem_head?_append_of_mem_head? (Option.mem_def.mpr hr))

/-- Witness for C7 (amended) at a connection with one queued reader. -/
theorem c7_read_start_appends_tail_witness :
    ((⟨some 2, [1], false, false, false⟩ :
        as_pipe_connection).writer = some 2)
    ∧ ((as_pipe_read_start 2 true
          ⟨some 2, [1], false, false, false⟩).writer = none
       ∧ (as_pipe_read_start 2 true
          ⟨some 2, [1], false, false, false⟩).readers = [1] ++ [2]
       ∧ (as_pipe_read_start 2 true
          ⟨some 2, [1], false, false, false⟩).readers.getLast? = some 2
       ∧ (([1] : List Nat) = [] →
          (as_pipe_read_start 2 true
            ⟨some 2, [1], false, false, false⟩).readers.head? = some 2)
       ∧ (∀ r, ([1] : List Nat).head? = some r →
          (as_pipe_read_start 2 true
            ⟨some 2, [1], false, false, false⟩).readers.head? = some r)) :=
  ⟨rfl, c7_read_start_appends_tail 2 true
     ⟨some 2, [1], false, false, false⟩ rfl⟩

/-- **C2.** While parsing a batch response stream, every record message
whose `result_code` is neither OK nor NOT_FOUND nor FILTERED_OUT causes
the parser to report that code as the whole batch's failure and stop
parsing (no slot is touched), whereas NOT_FOUND and FILTERED_OUT are
stored only in the addressed record slot's status — the slot's record
(bins, generation, ttl) is untouched — and parsing continues with the
remaining messages. -/
theorem c2_parse_stop_semantics (msg : as_msg) (rest : List as_msg)
    (records : List as_batch_read_record) (n_keys : Nat) :
    ((msg.result_code ≠ AEROSPIKE_OK ∧
      msg.result_code ≠ AEROSPIKE_ERR_RECORD_NOT_FOUND ∧
      msg.result_code ≠ AEROSPIKE_FILTERED_OUT) →
      as_batch_parse_records (msg :: rest) records n_keys =
        (.stopped msg.result_code, records))
    ∧ ((msg.result_code = AEROSPIKE_ERR_RECORD_NOT_FOUND ∨
        msg.result_code = AEROSPIKE_FILTERED_OUT) →
       msg.info3_last = false →
       msg.transaction_ttl < n_keys →
       as_batch_parse_records (msg :: rest) records n_keys =
         as_batch_parse_records rest
           (records.set msg.transaction_ttl
             { records.getD msg.transaction_ttl default with
                 result := msg.result_code }) n_keys) := by
  constructor
  · intro ⟨h0, h2, h27⟩
    have hstop : as_batch_parse_stop msg.result_code = true := by
      simp [as_batch_parse_stop, h0, h2, h27]
    simp [as_batch_parse_records, hstop]
  · intro hc hlast hidx
    have hstop : as_batch_parse_stop msg.result_code = false := by
      rcases hc with hc | hc <;>
        simp [as_batch_parse_stop, hc, AEROSPIKE_ERR_RECORD_NOT_FOUND,
          AEROSPIKE_FILTERED_OUT]
    have hok : ¬(msg.result_code = AEROSPIKE_OK) := by
      rcases hc with hc | hc <;>
        simp [hc, AEROSPIKE_ERR_RECORD_NOT_FOUND, AEROSPIKE_FILTERED_OUT,
          AEROSPIKE_OK]
    simp [as_batch_parse_records, hstop, hlast, Nat.not_le.mpr hidx, hok]

/-- Witness for C2: a PARAMETER error (code 4) stops the stream with
that code; a NOT_FOUND (code 2) sets only the slot's status and
continues. -/
theorem c2_parse_stop_semantics_witness :
    (((4 : Nat) ≠ AEROSPIKE_OK ∧ (4 : Nat) ≠ AEROSPIKE_ERR_RECORD_NOT_FOUND
        ∧ (4 : Nat) ≠ AEROSPIKE_FILTERED_OUT)
     ∧ as_batch_parse_records [⟨4, false, 0, 7, 8, 0, [5]⟩]
        [default] 1 = (.stopped 4, [default]))
    ∧ (((2 : Nat) = AEROSPIKE_ERR_RECORD_NOT_FOUND ∨
        (2 : Nat) = AEROSPIKE_FILTERED_OUT)
     ∧ as_batch_parse_records [⟨2, false, 0, 7, 8, 0, [5]⟩]
        [default] 1 =
        as_batch_parse_records []
          (([default] : List as_batch_read_record).set 0
            { ([default] : List as_batch_read_record).getD 0 default with
                result := 2 }) 1) :=
  ⟨⟨by decide,
    (c2_parse_stop_semantics ⟨4, false, 0, 7, 8, 0, [5]⟩ [] [default] 1).1
      (by decide)⟩,
   ⟨Or.inl (by decide),
    (c2_parse_stop_semantics ⟨2, false, 0, 7, 8, 0, [5]⟩ [] [default] 1).2
      (Or.inl (by decide)) rfl (by decide)⟩⟩

theorem cancel_readers_loop_eq (readers : List Nat) :
    cancel_readers_loop readers = readers := by
  induction readers with
  | nil => rfl
  | cons r rest ih => simp [cancel_readers_loop, ih]

/-- **C6.** When a pipelined connection is fatally cancelled, its writer
(if there is one) and every reader queued on the connection at that
moment are each completed (error callback or retry) exactly once, and
afterwards the connection's readers queue is empty.  The hypotheses are
the queue's structural invariants: no command is queued twice, and the
writer (still sending) is not also queued as a reader. -/
theorem c6_cancel_connection_totality (conn : as_pipe_connection)
    (hnodup : conn.readers.Nodup)
    (hw : ∀ w, conn.writer = some w → w ∉ conn.readers) :
    (cancel_connection conn).2.readers = []
    ∧ (∀ r ∈ conn.readers, (cancel_connection conn).1.count r = 1)
    ∧ (∀ w, conn.writer = some w → (cancel_connection conn).1.count w =
        1) := by
  have hfst : (cancel_connection conn).1 =
      (match conn.writer with | some w => [w] | none => []) ++
        conn.readers := by
    simp only [cancel_connection]
    split_ifs <;> simp [cancel_readers_loop_eq]
  have hsnd : (cancel_connection conn).2.readers = [] := by
    simp only [cancel_connection]
    split_ifs <;> rfl
  refine ⟨hsnd, ?_, ?_⟩
  · intro r hr
    rw [hfst, List.count_append]
    have h1 : conn.readers.count r = 1 :=
      List.count_eq_one_of_mem hnodup hr
    have h0 : (match conn.writer with
        | some w => [w] | none => []).count r = 0 := by
      cases hcw : conn.writer with
      | none => rfl
      | some w =>
        have : w ≠ r := fun he => hw w hcw (he ▸ hr)
        simp [List.count_singleton', this]
    omega
  · intro w hcw
    rw [hfst, hcw, List.count_append]
    have h0 : conn.readers.count w = 0 :=
      List.count_eq_zero.mpr (hw w hcw)
    simp [List.count_singleton', h0]

/-- Witness for C6 at a connection with writer 3 and queued readers
1, 2. -/
theorem c6_cancel_connection_totality_witness :
    ([1, 2] : List Nat).Nodup
    ∧ ((cancel_connection ⟨some 3, [1, 2], true, false, false⟩).2.readers
        = []
       ∧ (∀ r ∈ ([1, 2] : List Nat),
          (cancel_connection ⟨some 3, [1, 2], true, false,
            false⟩).1.count r = 1)
       ∧ (∀ w, (some 3 : Option Nat) = some w →
          (cancel_connection ⟨some 3, [1, 2], true, false,
            false⟩).1.count w = 1)) :=
  ⟨by decide,
   c6_cancel_connection_totality ⟨some 3, [1, 2], true, false, false⟩
     (by decide)
     (fun w hw => by
       obtain rfl : (3 : Nat) = w := Option.some.inj hw
       decide)⟩

theorem mem_map_node_plan_insert (plan : List as_batch_node)
    (node offset m : Nat) :
    m ∈ (as_batch_plan_insert plan node offset).map as_batch_node.node ↔
      m ∈ plan.map as_batch_node.node ∨ m = node := by
  induction plan with
  | nil => simp [as_batch_plan_insert]
  | cons b rest ih =>
    by_cases hb : b.node = node
    · simp only [as_batch_plan_insert]
      rw [if_pos hb]
      simp only [List.map_cons, List.mem_cons, hb]
      tauto
    · simp only [as_batch_plan_insert]
      rw [if_neg hb]
      simp only [List.map_cons, List.mem_cons, ih]
      tauto

theorem mem_map_node_build_plan_aux (assign : Nat → Nat)
    (offsets : List Nat) (plan : List as_batch_node) (m : Nat) :
    m ∈ (as_batch_build_plan_aux assign offsets plan).map
        as_batch_node.node ↔
      m ∈ plan.map as_batch_node.node ∨ ∃ off ∈ offsets,
        assign off = m := by
  induction offsets generalizing plan with
  | nil => simp [as_batch_build_plan_aux]
  | cons off rest ih =>
    simp only [as_batch_build_plan_aux, ih, mem_map_node_plan_insert,
      List.mem_cons]
    constructor
    · rintro ((h | h) | ⟨o, ho, rfl⟩)
      · exact Or.inl h
      · exact Or.inr ⟨off, Or.inl rfl, h.symm⟩
      · exact Or.inr ⟨o, Or.inr ho, rfl⟩
    · rintro (h | ⟨o, (rfl | ho), rfl⟩)
      · exact Or.inl (Or.inl h)
      · exact Or.inl (Or.inr rfl)
      · exact Or.inr ⟨o, ho, rfl⟩

theorem build_plan_aux_const (assign : Nat → Nat) (offsets : List Nat)
    (N : Nat) (acc : List Nat)
    (h : ∀ off ∈ offsets, assign off = N) :
    as_batch_build_plan_aux assign offsets [⟨N, acc⟩] =
      [⟨N, acc ++ offsets⟩] := by
  induction offsets generalizing acc with
  | nil => simp [as_batch_build_plan_aux]
  | cons off rest ih =>
    have hoff : assign off = N := h off (by simp)
    have hstep : as_batch_plan_insert [⟨N, acc⟩] (assign off) off =
        [⟨N, acc ++ [off]⟩] := by
      simp [as_batch_plan_insert, hoff]
    rw [as_batch_build_plan_aux, hstep,
      ih (acc ++ [off]) (fun o ho => h o (by simp [ho]))]
    simp

theorem build_plan_const (assign : Nat → Nat) (off : Nat)
    (rest : List Nat) (N : Nat)
    (h : ∀ o ∈ off :: rest, assign o = N) :
    as_batch_build_plan assign (off :: rest) = [⟨N, off :: rest⟩] := by
  have hoff : assign off = N := h off (by simp)
  have hstep : as_batch_plan_insert [] (assign off) off =
      [⟨N, [off]⟩] := by
    simp [as_batch_plan_insert, hoff]
  rw [as_batch_build_plan, as_batch_build_plan_aux, hstep,
    build_plan_aux_const assign rest N [off]
      (fun o ho => h o (by simp [ho]))]
  simp

theorem same_single_node_build_plan (assign : Nat → Nat)
    (offsets : List Nat) (N : Nat) (hne : offsets ≠ []) :
    as_batch_same_single_node (as_batch_build_plan assign offsets) N =
        true ↔
      ∀ off ∈ offsets, assign off = N := by
  constructor
  · intro h off hmem
    obtain ⟨b, hplan, hbn⟩ : ∃ b,
        as_batch_build_plan assign offsets = [b] ∧ b.node = N := by
      rcases hp : as_batch_build_plan assign offsets with _ | ⟨b, _ | ⟨c, r⟩⟩ <;>
        rw [hp] at h <;>
        simp [as_batch_same_single_node] at h
      exact ⟨b, rfl, h⟩
    have hm : assign off ∈ (as_batch_build_plan assign offsets).map
        as_batch_node.node := by
      rw [as_batch_build_plan, mem_map_node_build_plan_aux]
      exact Or.inr ⟨off, hmem, rfl⟩
    rw [hplan] at hm
    simpa [hbn] using hm
  · intro h
    obtain ⟨off, rest, rfl⟩ := List.exists_cons_of_ne_nil hne
    rw [build_plan_const assign off rest N h]
    simp [as_batch_same_single_node]

/-- **C3, counterexample.**  An async retry whose recomputed plan routes
offsets 0, 1 to the two distinct nodes 5, 6 (so not "all offsets to
exactly one node equal to the failing node 5") must, per the claim,
dispatch the sub-batches — but because the total deadline (100) has
already passed (now = 200), the code returns -2 and defers to the
original error without dispatching anything. -/
theorem c3_async_deadline_counterexample :
    (as_batch_retry_async .SEQUENCE true 2 true .SESSION ⟨true, true⟩
        (fun o => o + 5) [0, 1] 5 100 200).1 = .deferOriginal
    ∧ as_batch_same_single_node
        (as_batch_build_plan (fun o => o + 5) [0, 1]) 5 = false := by
  decide

/-- **C3, amended.** For every batch retry in which the recomputed plan
maps all of the failing node's offsets to exactly one node equal to it,
the split-retry path declines (returns control to normal retry without
dispatching sub-batches); in every other case the recomputed plan's
sub-batches are dispatched, **except** that the async path, after
planning, abandons the retry and defers to the original error when the
command's total deadline has already passed. -/
theorem c3_split_retry_decline (assign : Nat → Nat) (offsets : List Nat)
    (taskNode n_nodes : Nat) (replica : as_policy_replica)
    (timeout : Bool) (read_mode_sc : as_policy_read_mode_sc)
    (flags : as_batch_master_flags) (parentNode total_deadline now : Nat)
    (hne : offsets ≠ []) (hnodes : n_nodes ≠ 0)
    (hrep : replica = .SEQUENCE ∨ replica = .PREFER_RACK) :
    (as_batch_retry_records assign offsets taskNode n_nodes =
        .normalRetry ↔ ∀ off ∈ offsets, assign off = taskNode)
    ∧ (¬(∀ off ∈ offsets, assign off = taskNode) →
       as_batch_retry_records assign offsets taskNode n_nodes =
         .dispatched (as_batch_build_plan assign offsets))
    ∧ ((as_batch_retry_async replica true n_nodes timeout read_mode_sc
          flags assign offsets parentNode total_deadline now).1 =
        .normalRetry ↔ ∀ off ∈ offsets, assign off = parentNode)
    ∧ (¬(∀ off ∈ offsets, assign off = parentNode) →
       (total_deadline = 0 ∨ now < total_deadline) →
       (as_batch_retry_async replica true n_nodes timeout read_mode_sc
          flags assign offsets parentNode total_deadline now).1 =
         .splitInitiated (as_batch_build_plan assign offsets)) := by
  have hrec : ∀ N, as_batch_same_single_node
      (as_batch_build_plan assign offsets) N = true ↔
      ∀ off ∈ offsets, assign off = N :=
    fun N => same_single_node_build_plan assign offsets N hne
  refine ⟨?_, ?_, ?_, ?_⟩
  · rw [← hrec taskNode]
    unfold as_batch_retry_records
    rw [if_neg hnodes]
    constructor
    · intro h
      by_contra hs
      rw [if_neg (by simpa using hs)] at h
      exact absurd h (by simp)
    · intro h
      rw [if_pos h]
  · intro h
    rw [← hrec taskNode] at h
    unfold as_batch_retry_records
    rw [if_neg hnodes, if_neg (by simpa using h)]
  · rw [← hrec parentNode]
    simp only [as_batch_retry_async]
    rw [if_neg (by simp [hrep]), if_neg (by simp), if_neg hnodes]
    constructor
    · intro h
      by_contra hs
      rw [if_neg (by simpa using hs)] at h
      split_ifs at h <;> simp at h
    · intro h
      rw [if_pos h]
  · intro h hdl
    rw [← hrec parentNode] at h
    simp only [as_batch_retry_async]
    rw [if_neg (by simp [hrep]), if_neg (by simp), if_neg hnodes,
      if_neg (by simpa using h), if_neg (by omega)]

/-- Witness for C3 (amended): a retry whose two offsets both resolve to
the failing node 7 declines on the sync path, and dispatches when they
resolve elsewhere within the deadline on the async path. -/
theorem c3_split_retry_decline_witness :
    ([0, 1] : List Nat) ≠ [] ∧ (2 : Nat) ≠ 0
    ∧ (as_batch_retry_records (fun _ => 7) [0, 1] 7 2 = .normalRetry ↔
        ∀ off ∈ ([0, 1] : List Nat), (fun _ => 7) off = 7)
    ∧ (¬(∀ off ∈ ([0, 1] : List Nat), (fun o => o + 5) off = 5) →
       (0 : Nat) = 0 ∨ (0 : Nat) < 0 →
       (as_batch_retry_async .SEQUENCE true 2 true .SESSION ⟨true, true⟩
          (fun o => o + 5) [0, 1] 5 0 0).1 =
         .splitInitiated (as_batch_build_plan (fun o => o + 5) [0, 1])) :=
  ⟨by decide, by decide,
   (c3_split_retry_decline (fun _ => 7) [0, 1] 7 2 .SEQUENCE true
      .SESSION ⟨true, true⟩ 7 0 0 (by decide) (by decide)
      (Or.inl rfl)).1,
   (c3_split_retry_decline (fun o => o + 5) [0, 1] 7 2 .SEQUENCE true
      .SESSION ⟨true, true⟩ 5 0 0 (by decide) (by decide)
      (Or.inl rfl)).2.2.2⟩

/-- The claim's notion of entry-field agreement: namespace string-equal,
set string-equal whenever set names are sent, bin-name selection
identical by reference (same `bin_names` pointer) and equal
`read_all_bins`. -/
def as_batch_fields_eq (send_set_name : Bool)
    (a b : as_batch_read_record) : Prop :=
  a.ns = b.ns ∧ (send_set_name = true → a.set = b.set)
    ∧ a.bin_names = b.bin_names ∧ a.read_all_bins = b.read_all_bins

theorem repeat_prev_iff_fields_eq (ssn : Bool)
    (a b : as_batch_read_record) :
    as_batch_repeat_prev ssn a b = true ↔ as_batch_fields_eq ssn a b := by
  cases ssn <;> simp [as_batch_repeat_prev, as_batch_fields_eq, and_assoc]

theorem prev_matches_some (ssn : Bool)
    (prev : Option as_batch_read_record) (r : as_batch_read_record)
    (h : as_batch_prev_matches ssn prev r = true) :
    ∃ p, prev = some p ∧ as_batch_repeat_prev ssn p r = true := by
  cases prev with
  | none => simp [as_batch_prev_matches] at h
  | some p => exact ⟨p, rfl, h⟩

theorem fields_eq_of_common (ssn : Bool) (q a b : as_batch_read_record)
    (h1 : as_batch_fields_eq ssn q a) (h2 : as_batch_fields_eq ssn q b) :
    as_batch_fields_eq ssn a b := by
  obtain ⟨e1, e2, e3, e4⟩ := h1
  obtain ⟨f1, f2, f3, f4⟩ := h2
  exact ⟨e1.symm.trans f1, fun hs => (e2 hs).symm.trans (f2 hs),
    e3.symm.trans f3, e4.symm.trans f4⟩

theorem length_as_digest_bytes (d : List Nat) :
    (as_digest_bytes d).length = 20 := by
  simp [as_digest_bytes, AS_DIGEST_VALUE_SIZE]

theorem entry_get24 (off : Nat) (d : List Nat) (l : List Nat) :
    (be32 off ++ (as_digest_bytes d ++ l)).get? 24 = l.get? 0 := by
  have hassoc : be32 off ++ (as_digest_bytes d ++ l) =
      (be32 off ++ as_digest_bytes d) ++ l := by
    simp
  have hlen : (be32 off ++ as_digest_bytes d).length = 24 := by
    simp [length_as_digest_bytes, be32]
  rw [hassoc, List.get?_append_right (by omega)]
  rw [hlen]

theorem write_entries_cons (ssn : Bool) (ra : Nat)
    (heap : Nat → Nat → String) (records : List as_batch_read_record)
    (off : Nat) (rest : List Nat)
    (prev : Option as_batch_read_record) :
    as_batch_write_entries ssn ra heap records (off :: rest) prev =
      if as_batch_prev_matches ssn prev (records.getD off default) then
        (be32 off ++ (as_digest_bytes (records.getD off default).digest
            ++ [1]))
          :: as_batch_write_entries ssn ra heap records rest prev
      else
        (be32 off ++ (as_digest_bytes (records.getD off default).digest
            ++ ([0] ++ as_batch_write_entry_body ssn ra heap
                  (records.getD off default))))
          :: as_batch_write_entries ssn ra heap records rest
              (some (records.getD off default)) := rfl

theorem write_entries_flag_consec (ssn : Bool) (ra : Nat)
    (heap : Nat → Nat → String) (records : List as_batch_read_record) :
    ∀ (offsets : List Nat) (prev : Option as_batch_read_record) (j : Nat)
      (e : List Nat),
      (as_batch_write_entries ssn ra heap records offsets prev).get?
          (j + 1) = some e →
      e.get? 24 = some 1 →
      as_batch_fields_eq ssn (records.getD (offsets.getD j 0) default)
        (records.getD (offsets.getD (j + 1) 0) default) := by
  intro offsets
  induction offsets with
  | nil =>
    intro prev j e h1 h2
    simp [as_batch_write_entries] at h1
  | cons off rest ih =>
    intro prev j e h1 h2
    rw [write_entries_cons] at h1
    by_cases hm : as_batch_prev_matches ssn prev
        (records.getD off default) = true
    · rw [if_pos hm, List.get?_cons_succ] at h1
      cases j with
      | zero =>
        cases rest with
        | nil => simp [as_batch_write_entries] at h1
        | cons off1 rest1 =>
          rw [write_entries_cons] at h1
          by_cases hm1 : as_batch_prev_matches ssn prev
              (records.getD off1 default) = true
          · obtain ⟨p, hp, hrep0⟩ := prev_matches_some _ _ _ hm
            obtain ⟨p1, hp1, hrep1⟩ := prev_matches_some _ _ _ hm1
            rw [hp] at hp1
            obtain rfl : p = p1 := Option.some.inj hp1
            simp only [List.getD_cons_zero, List.getD_cons_succ]
            exact fields_eq_of_common ssn p _ _
              ((repeat_prev_iff_fields_eq ssn p _).mp hrep0)
              ((repeat_prev_iff_fields_eq ssn p _).mp hrep1)
          · rw [if_neg hm1, List.get?_cons_zero] at h1
            obtain rfl := Option.some.inj h1
            rw [entry_get24] at h2
            simp at h2
      | succ k =>
        have := ih prev k e h1 h2
        simpa using this
    · rw [if_neg hm, List.get?_cons_succ] at h1
      cases j with
      | zero =>
        cases rest with
        | nil => simp [as_batch_write_entries] at h1
        | cons off1 rest1 =>
          rw [write_entries_cons] at h1
          by_cases hm1 : as_batch_prev_matches ssn
              (some (records.getD off default))
              (records.getD off1 default) = true
          · obtain ⟨p1, hp1, hrep1⟩ := prev_matches_some _ _ _ hm1
            obtain rfl : records.getD off default = p1 :=
              Option.some.inj hp1
            simp only [List.getD_cons_zero, List.getD_cons_succ]
            exact (repeat_prev_iff_fields_eq ssn _ _).mp hrep1
          · rw [if_neg hm1, List.get?_cons_zero] at h1
            obtain rfl := Option.some.inj h1
            rw [entry_get24] at h2
            simp at h2
      | succ k =>
        have := ih (some (records.getD off default)) k e h1 h2
        simpa using this

/-- **C5.** For every pair of consecutive entries written by the
batch-index encoder, repeat_flag = 1 (the byte at offset 24 of the
entry, after the 4-byte index and 20-byte digest) is emitted only when
the current record's namespace string-equals the previous record's, the
set string-equals it whenever set names are sent, and the bin-name
selection is identical by reference (the same `bin_names` pointer and
equal `read_all_bins`) — never by mere value equality of the bin-name
lists: two records whose pointed-to name lists are value-equal under the
heap but whose pointers differ get repeat_flag = 0. -/
theorem c5_repeat_flag_reference_identity :
    (∀ (ssn : Bool) (ra : Nat) (heap : Nat → Nat → String)
       (records : List as_batch_read_record) (offsets : List Nat)
       (prev : Option as_batch_read_record) (j : Nat) (e : List Nat),
      (as_batch_write_entries ssn ra heap records offsets prev).get?
          (j + 1) = some e →
      e.get? 24 = some 1 →
      as_batch_fields_eq ssn (records.getD (offsets.getD j 0) default)
        (records.getD (offsets.getD (j + 1) 0) default))
    ∧ (((as_batch_write_entries true 1 (fun _ _ => "b")
          [⟨"t", "s", [], some 0, 1, false, 0, 0, 0, []⟩,
           ⟨"t", "s", [], some 1, 1, false, 0, 0, 0, []⟩]
          [0, 1] none).get? 1).bind (fun e => e.get? 24) = some 0) := by
  constructor
  · exact write_entries_flag_consec
  · decide

/-- Witness for C5 at two identical records sharing one `bin_names`
pointer: the second entry's repeat flag is 1 and the theorem yields the
field agreement. -/
theorem c5_repeat_flag_reference_identity_witness :
    ((as_batch_write_entries true 1 (fun _ _ => "b")
        [⟨"t", "s", [], some 0, 1, false, 0, 0, 0, []⟩,
         ⟨"t", "s", [], some 0, 1, false, 0, 0, 0, []⟩]
        [0, 1] none).get? 1 =
      some ([0, 0, 0, 1] ++ (List.replicate 20 0 ++ [1])))
    ∧ (([0, 0, 0, 1] ++ (List.replicate 20 0 ++ [1])).get? 24 = some 1)
    ∧ as_batch_fields_eq true
        (([⟨"t", "s", [], some 0, 1, false, 0, 0, 0, []⟩,
           ⟨"t", "s", [], some 0, 1, false, 0, 0, 0, []⟩] :
            List as_batch_read_record).getD
          (([0, 1] : List Nat).getD 0 0) default)
        (([⟨"t", "s", [], some 0, 1, false, 0, 0, 0, []⟩,
           ⟨"t", "s", [], some 0, 1, false, 0, 0, 0, []⟩] :
            List as_batch_read_record).getD
          (([0, 1] : List Nat).getD 1 0) default) :=
  ⟨by decide, by decide,
   c5_repeat_flag_reference_identity.1 true 1 (fun _ _ => "b")
     [⟨"t", "s", [], some 0, 1, false, 0, 0, 0, []⟩,
      ⟨"t", "s", [], some 0, 1, false, 0, 0, 0, []⟩]
     [0, 1] none 0 ([0, 0, 0, 1] ++ (List.replicate 20 0 ++ [1]))
     (by decide) (by decide)⟩

theorem length_be32 (n : Nat) : (be32 n).length = 4 := rfl

theorem length_be16 (n : Nat) : (be16 n).length = 2 := rfl

theorem length_strBytes (s : String) : (strBytes s).length = s.length := by
  simp only [strBytes, List.length_map]
  rfl

theorem length_header_read (a b c d e : Nat) :
    (as_command_write_header_read a b c d e).length = AS_HEADER_SIZE := by
  simp [as_command_write_header_read, be32, be16, AS_HEADER_SIZE]

theorem length_field_header (a b : Nat) :
    (as_command_write_field_header a b).length = AS_FIELD_HEADER_SIZE := by
  simp [as_command_write_field_header, be32, AS_FIELD_HEADER_SIZE]

theorem length_write_field_string (ftype : Nat) (s : String) :
    (as_command_write_field_string ftype s).length =
      as_command_string_field_size s := by
  simp only [as_command_write_field_string, List.length_append,
    length_field_header, length_strBytes, as_command_string_field_size,
    AS_FIELD_HEADER_SIZE]
  omega

theorem length_write_bin_name (s : String) :
    (as_command_write_bin_name s).length =
      as_command_string_operation_size s := by
  simp only [as_command_write_bin_name, List.length_append, length_be32,
    List.length_cons, List.length_nil, length_strBytes,
    as_command_string_operation_size]
  omega

theorem length_flatten_bin_names (l : List String) :
    ((l.map as_command_write_bin_name).flatten).length =
      (l.map as_command_string_operation_size).sum := by
  induction l with
  | nil => simp
  | cons s rest ih => simp [length_write_bin_name, ih]

theorem length_flatten_bin_names_range (heap : Nat → Nat → String)
    (ptr n : Nat) :
    (((List.range n).map
        (fun i => as_command_write_bin_name (heap ptr i))).flatten).length
      = ((List.range n).map
          (fun i => as_command_string_operation_size (heap ptr i))).sum := by
  have h := length_flatten_bin_names ((List.range n).map (heap ptr))
  simpa [List.map_map, Function.comp] using h

theorem length_entry_body (ssn : Bool) (ra : Nat)
    (heap : Nat → Nat → String) (r : as_batch_read_record) :
    1 + (as_batch_write_entry_body ssn ra heap r).length =
      (as_command_string_field_size r.ns + 6)
      + (if ssn then as_command_string_field_size r.set else 0)
      + (match r.bin_names with
         | some ptr => ((List.range r.n_bin_names).map
             (fun i => as_command_string_operation_size (heap ptr i))).sum
         | none => 0) := by
  unfold as_batch_write_entry_body
  rcases hbn : r.bin_names with _ | ptr
  · rw [if_neg (by simp)]
    cases ssn <;>
      simp [be16, length_write_field_string,
        as_command_string_field_size, AS_FIELD_HEADER_SIZE] <;>
      try omega
  · rcases hn : r.n_bin_names with _ | k
    · rw [if_neg (by simp)]
      cases ssn <;>
        simp [be16, length_write_field_string,
          as_command_string_field_size, AS_FIELD_HEADER_SIZE] <;>
        try omega
    · rw [if_pos (by simp)]
      have hfl := length_flatten_bin_names_range heap ptr (k + 1)
      cases ssn <;>
        simp only [List.length_append, Option.getD_some, List.length_cons,
          List.length_nil, length_be16, length_write_field_string,
          Bool.false_eq_true, if_false, if_true] <;>
        rw [hfl] <;> omega

theorem size_entries_cons (ssn : Bool) (heap : Nat → Nat → String)
    (records : List as_batch_read_record) (off : Nat) (rest : List Nat)
    (prev : Option as_batch_read_record) :
    as_batch_size_entries ssn heap records (off :: rest) prev =
      if as_batch_prev_matches ssn prev (records.getD off default) then
        AS_DIGEST_VALUE_SIZE + 4 + 1
          + as_batch_size_entries ssn heap records rest prev
      else
        AS_DIGEST_VALUE_SIZE + 4
          + (as_command_string_field_size (records.getD off default).ns
              + 6)
          + (if ssn then
              as_command_string_field_size (records.getD off default).set
             else 0)
          + (match (records.getD off default).bin_names with
             | some ptr =>
               ((List.range (records.getD off default).n_bin_names).map
                 (fun i =>
                   as_command_string_operation_size (heap ptr i))).sum
             | none => 0)
          + as_batch_size_entries ssn heap records rest
              (some (records.getD off default)) := rfl

theorem length_flatten_write_entries (ssn : Bool) (ra : Nat)
    (heap : Nat → Nat → String) (records : List as_batch_read_record) :
    ∀ (offsets : List Nat) (prev : Option as_batch_read_record),
      ((as_batch_write_entries ssn ra heap records offsets
          prev).flatten).length =
        as_batch_size_entries ssn heap records offsets prev := by
  intro offsets
  induction offsets with
  | nil =>
    intro prev
    simp [as_batch_write_entries, as_batch_size_entries]
  | cons off rest ih =>
    intro prev
    rw [write_entries_cons, size_entries_cons]
    by_cases hm : as_batch_prev_matches ssn prev
        (records.getD off default) = true
    · rw [if_pos hm, if_pos hm]
      simp only [List.flatten_cons, List.length_append, ih prev,
        length_as_digest_bytes, length_be32, List.length_cons,
        List.length_nil, AS_DIGEST_VALUE_SIZE]
      try omega
    · rw [if_neg hm, if_neg hm]
      simp only [List.flatten_cons, List.length_append, ih,
        length_as_digest_bytes, length_be32, List.length_cons,
        List.length_nil, AS_DIGEST_VALUE_SIZE]
      have hb := length_entry_body ssn ra heap (records.getD off default)
      omega

/-- **C10.** For every record list, offset vector and batch policy, the
number of bytes written by `as_batch_index_records_write` is at most the
size estimate returned by `as_batch_size_records` for the same inputs,
so the command buffer allocated from the estimate is never overrun by
the encoder.  (The two agree exactly: the repeat decisions are the same
computation on both sides and every emitted byte is counted.) -/
theorem c10_write_within_size_estimate (policy : as_policy_batch)
    (heap : Nat → Nat → String) (records : List as_batch_read_record)
    (offsets : List Nat) (pred_field : Option (List Nat)) :
    (as_batch_index_records_write policy heap records offsets
        pred_field).length ≤
      as_batch_size_records policy heap records offsets pred_field := by
  rcases hpe : policy.predexp with _ | l <;>
    rcases hpf : pred_field with _ | f <;>
      simp only [as_batch_index_records_write, as_batch_size_records,
        hpe, hpf, List.length_append, length_header_read,
        length_field_header, length_be32, List.length_cons,
        List.length_nil, length_flatten_write_entries, AS_HEADER_SIZE,
        AS_FIELD_HEADER_SIZE] <;>
      omega

end Aerospike
